import Mathlib

/-!
Shallow embedding of `torch/csrc/cupti_tracer.cpp` (namespace `cupti_tracer`).

The file models the CUPTI tracing core of the repository:

* `Record` mirrors `Tracer::Record` (the `end` field of the C++ struct is
  rendered `end_` because `end` is a Lean keyword; `processId`/`threadId`
  double as device id / stream id for kernel records, as in the source).
* `RawActivity` models the `CUpti_Activity` variants the decoder inspects:
  driver API spans, runtime API spans, serial and concurrent kernel spans,
  plus an `other` constructor for every activity kind the switch in
  `Tracer::ActivityCallback` does not handle.
* `ActivityCallback` is the decode switch of `Tracer::ActivityCallback`
  acting on the record store `records_` (a `push_back` becomes an append).
* `BUF_SIZE`, `ALIGN_SIZE`, `ALIGN_BUFFER`, `InternalBufferRequested` model
  the buffer pool; the allocator is abstracted as an `Option Nat` (the
  address `malloc` returned, or `none` for allocation failure), and a fatal
  `exit(-1)` is the `Outcome.aborted` constructor.
* `InternalBufferCompleted` models the buffer-completed handler: the CUPTI
  record cursor is abstracted as the list of successfully extracted raw
  records followed by the first non-success status
  (`CUPTI_ERROR_MAX_LIMIT_REACHED` or any other error code); the returned
  `List Nat` collects the addresses passed to `free`.
* `Tracer.start` / `Tracer.stop` are the literal sequences of provider
  calls those member functions issue, and `APICallback` is the subscribed
  host-API callback.
-/

namespace cupti_tracer

/-- Activity kinds enabled and disabled by `Tracer::start` / `Tracer::stop`
(the `CUPTI_ACTIVITY_KIND_*` constants that appear in the source). -/
inductive ActivityKind where
  | CONTEXT
  | DRIVER
  | RUNTIME
  | MEMCPY
  | MEMSET
  | NAME
  | MARKER
  | KERNEL
  | OVERHEAD
  deriving DecidableEq, Repr

/-- Mirror of `Tracer::Record`: `{kind, name, start, end, processId, threadId,
correlationId}`. The C++ field `end` is rendered `end_`; for kernel records
`processId` holds the device id and `threadId` the stream id, exactly as the
source comments state. -/
structure Record where
  kind : String
  name : String
  start : Nat
  end_ : Nat
  processId : Nat
  threadId : Nat
  correlationId : Nat
  deriving DecidableEq, Repr

/-- One raw `CUpti_Activity` record as delivered by the provider, restricted
to the fields `Tracer::ActivityCallback` reads. `other` stands for every
activity kind the decode switch has no case for. -/
inductive RawActivity where
  | driver (start end_ processId threadId correlationId : Nat)
  | runtime (start end_ processId threadId correlationId : Nat)
  | kernel (name : String) (start end_ deviceId streamId correlationId : Nat)
  | concurrentKernel (name : String) (start end_ deviceId streamId correlationId : Nat)
  | other (kindCode : Nat)
  deriving DecidableEq, Repr

/-- The decode switch of `Tracer::ActivityCallback`, acting on the record
store `records_`: each handled kind appends exactly one `Record`
(`records_.push_back(...)`), every unhandled kind falls through the switch
and leaves the store untouched. The kind tags are the literal C string
constants of the source, including `"CONC KERNEL"` for
`CUPTI_ACTIVITY_KIND_CONCURRENT_KERNEL`. -/
def ActivityCallback (records_ : List Record) (record : RawActivity) : List Record :=
  match record with
  | .driver s e p t c => records_ ++ [⟨"DRIVER", "", s, e, p, t, c⟩]
  | .runtime s e p t c => records_ ++ [⟨"RUNTIME", "", s, e, p, t, c⟩]
  | .kernel n s e d st c => records_ ++ [⟨"KERNEL", n, s, e, d, st, c⟩]
  | .concurrentKernel n s e d st c => records_ ++ [⟨"CONC KERNEL", n, s, e, d, st, c⟩]
  | .other _ => records_

/-- `Tracer::get_records`: returns the record store as is. -/
def get_records (records_ : List Record) : List Record :=
  records_

/-- `BUF_SIZE` of the source: `32 * 1024`. -/
def BUF_SIZE : Nat := 32 * 1024

/-- `ALIGN_SIZE` of the source: 8. -/
def ALIGN_SIZE : Nat := 8

/-- The `ALIGN_BUFFER(buffer, align)` macro: if `buffer & (align - 1)` is
non-zero, advance the pointer by `align - (buffer & (align - 1))`, else keep
it. Pointers are modelled as natural-number addresses. -/
def ALIGN_BUFFER (buffer align : Nat) : Nat :=
  if buffer &&& (align - 1) ≠ 0 then buffer + (align - (buffer &&& (align - 1))) else buffer

/-- Result of a code path that may call `exit(-1)`: either a value or a
process abort carrying the exit code. -/
inductive Outcome (α : Type) where
  | ok (value : α)
  | aborted (code : Int)
  deriving DecidableEq, Repr

/-- `CUptiManager::InternalBufferRequested`. The allocator is abstracted as
the address `malloc(BUF_SIZE + ALIGN_SIZE)` returned, `none` meaning
allocation failure. On failure the source prints and calls `exit(-1)`;
otherwise it reports `(*buffer, *size, *maxNumRecords) =
(ALIGN_BUFFER(bfr, ALIGN_SIZE), BUF_SIZE, 0)`. -/
def InternalBufferRequested (allocation : Option Nat) : Outcome (Nat × Nat × Nat) :=
  match allocation with
  | none => .aborted (-1)
  | some bfr => .ok (ALIGN_BUFFER bfr ALIGN_SIZE, BUF_SIZE, 0)

/-- The first non-success status the record cursor
(`cuptiActivityGetNextRecord`) reports after yielding its successful
records: either `CUPTI_ERROR_MAX_LIMIT_REACHED` (no more records) or any
other error code. -/
inductive TerminalStatus where
  | maxLimitReached
  | error (code : Nat)
  deriving DecidableEq, Repr

/-- `CUptiManager::InternalBufferCompleted`. The cursor over the buffer is
abstracted as `extracted` (the raw records it yields with `CUPTI_SUCCESS`)
followed by `terminal`. When `validSize > 0` the handler decodes each
extracted record via `ActivityCallback`; `maxLimitReached` breaks the loop,
any other status reaches `CUPTI_CALL(status)` and aborts the process before
`free` runs. On every non-aborting path — including `validSize == 0`, where
the cursor is never consulted — `free(buffer)` runs once; the second
component of the result lists the addresses passed to `free`. -/
def InternalBufferCompleted (records_ : List Record) (buffer validSize : Nat)
    (extracted : List RawActivity) (terminal : TerminalStatus) :
    Outcome (List Record × List Nat) :=
  if 0 < validSize then
    match terminal with
    | .maxLimitReached => .ok (extracted.foldl ActivityCallback records_, [buffer])
    | .error _ => .aborted (-1)
  else
    .ok (records_, [buffer])

/-- CUPTI callback domains appearing in the source (`CUPTI_CB_DOMAIN_*`);
`other` stands for every remaining domain value. -/
inductive CallbackDomain where
  | DRIVER_API
  | RUNTIME_API
  | other (code : Nat)
  deriving DecidableEq, Repr

/-- Callback identifiers appearing in the source; `other` stands for every
remaining callback id of the provider. -/
inductive CallbackId where
  | cuLaunchKernel
  | cuLaunchKernel_ptsz
  | cudaLaunch_v3020
  | other (code : Nat)
  deriving DecidableEq, Repr

/-- One call `Tracer::start` or `Tracer::stop` issues to the provider. -/
inductive ProviderCall where
  | activityEnable (kind : ActivityKind)
  | activityDisable (kind : ActivityKind)
  | subscribe
  | enableCallback (enable : Nat) (domain : CallbackDomain) (cbid : CallbackId)
  | unsubscribe
  | activityFlushAll (flag : Nat)
  deriving DecidableEq, Repr

/-- The provider calls `Tracer::start` issues, in source order. -/
def Tracer.start : List ProviderCall :=
  [.activityEnable .CONTEXT,
   .activityEnable .DRIVER,
   .activityEnable .RUNTIME,
   .activityEnable .MEMCPY,
   .activityEnable .MEMSET,
   .activityEnable .NAME,
   .activityEnable .MARKER,
   .activityEnable .KERNEL,
   .activityEnable .OVERHEAD,
   .subscribe,
   .enableCallback 1 .DRIVER_API .cuLaunchKernel,
   .enableCallback 1 .DRIVER_API .cuLaunchKernel_ptsz,
   .enableCallback 1 .RUNTIME_API .cudaLaunch_v3020]

/-- The provider calls `Tracer::stop` issues, in source order. -/
def Tracer.stop : List ProviderCall :=
  [.activityDisable .CONTEXT,
   .activityDisable .DRIVER,
   .activityDisable .RUNTIME,
   .activityDisable .MEMCPY,
   .activityDisable .MEMSET,
   .activityDisable .NAME,
   .activityDisable .MARKER,
   .activityDisable .KERNEL,
   .activityDisable .OVERHEAD,
   .unsubscribe,
   .activityFlushAll 0]

/-- The activity kinds a call sequence enables, in order. -/
def enabledKinds (calls : List ProviderCall) : List ActivityKind :=
  calls.filterMap fun c =>
    match c with
    | .activityEnable k => some k
    | _ => none

/-- The activity kinds a call sequence disables, in order. -/
def disabledKinds (calls : List ProviderCall) : List ActivityKind :=
  calls.filterMap fun c =>
    match c with
    | .activityDisable k => some k
    | _ => none

/-- `Tracer::APICallback`, the host-API callback `start` subscribes, acting
on the record store: the body only switches on the domain with empty
(`break`-only) cases, so no branch touches `records_`. -/
def APICallback (records_ : List Record) (domain : CallbackDomain)
    (cbid : CallbackId) : List Record :=
  match domain with
  | .RUNTIME_API => records_
  | .DRIVER_API => records_
  | .other _ => records_

/-- The timestamps of a raw record are ordered (start before end); vacuous
for kinds that carry no decoded timestamps. This is an assumption on the
provider, not a check the source performs. -/
def rawTimesOrdered : RawActivity → Prop
  | .driver s e _ _ _ => s ≤ e
  | .runtime s e _ _ _ => s ≤ e
  | .kernel _ s e _ _ _ => s ≤ e
  | .concurrentKernel _ s e _ _ _ => s ≤ e
  | .other _ => True

/-- The record store after a session that started from the empty store and
decoded the listed raw records, in arrival order. -/
def sessionRecords (delivered : List RawActivity) : List Record :=
  delivered.foldl ActivityCallback []

lemma ActivityCallback_append (records_ : List Record) (r : RawActivity) :
    ActivityCallback records_ r = records_ ++ ActivityCallback [] r := by
  cases r <;> simp [ActivityCallback]

lemma mem_foldl_ActivityCallback (delivered : List RawActivity)
    (records_ : List Record) (rec : Record) :
    rec ∈ delivered.foldl ActivityCallback records_ ↔
      rec ∈ records_ ∨ ∃ r ∈ delivered, rec ∈ ActivityCallback [] r := by
  induction delivered generalizing records_ with
  | nil => simp
  | cons a as ih =>
      rw [List.foldl_cons, ih, ActivityCallback_append]
      simp only [List.mem_append, List.mem_cons]
      constructor
      · rintro (⟨h | h⟩ | ⟨r, hr, hrec⟩)
        · exact Or.inl h
        · exact Or.inr ⟨a, Or.inl rfl, h⟩
        · exact Or.inr ⟨r, Or.inr hr, hrec⟩
      · rintro (h | ⟨r, rfl | hr, hrec⟩)
        · exact Or.inl (Or.inl h)
        · exact Or.inl (Or.inr hrec)
        · exact Or.inr ⟨r, hr, hrec⟩

/-- C1: for a session whose provider delivers one completed buffer holding a
runtime-API raw record (start 100, end 150, process 1, thread 7,
correlation 42) followed by a serial-kernel raw record (name "matmul",
start 160, end 300, device 0, stream 3, correlation 42), the store read by
`get_records` after the flush holds exactly two records in that order: a
RUNTIME record with empty name and a KERNEL record named "matmul", both
with correlation id 42. -/
theorem C1_runtime_then_kernel_scenario :
    InternalBufferCompleted [] 4096 96
        [.runtime 100 150 1 7 42, .kernel "matmul" 160 300 0 3 42]
        .maxLimitReached
      = .ok (get_records
          [⟨"RUNTIME", "", 100, 150, 1, 7, 42⟩,
           ⟨"KERNEL", "matmul", 160, 300, 0, 3, 42⟩], [4096]) := by
  rfl

/-- C2, counterexample: decoding a concurrent-kernel raw record produces the
kind tag "CONC KERNEL", which is not the tag "CONCURRENT_KERNEL" the claim
states. -/
theorem C2_conc_kernel_tag_counterexample :
    ActivityCallback [] (.concurrentKernel "vecAdd" 10 20 1 2 3)
        = [⟨"CONC KERNEL", "vecAdd", 10, 20, 1, 2, 3⟩] ∧
    ("CONC KERNEL" : String) ≠ "CONCURRENT_KERNEL" := by
  exact ⟨rfl, by decide⟩

/-- C2, amended: every record the decoder appends carries one of exactly the
four tags "DRIVER", "RUNTIME", "KERNEL", "CONC KERNEL"; in particular a
concurrent-kernel raw record is appended with tag "CONC KERNEL". -/
theorem C2_kind_tags_amended :
    (∀ records_ r rec, rec ∈ ActivityCallback records_ r →
        rec ∈ records_ ∨
          rec.kind ∈ (["DRIVER", "RUNTIME", "KERNEL", "CONC KERNEL"] : List String)) ∧
    (∀ records_ n s e d st c,
        ActivityCallback records_ (.concurrentKernel n s e d st c)
          = records_ ++ [⟨"CONC KERNEL", n, s, e, d, st, c⟩]) := by
  constructor
  · intro records_ r rec hrec
    rw [ActivityCallback_append] at hrec
    rcases List.mem_append.mp hrec with h | h
    · exact Or.inl h
    · right
      cases r <;> simp [ActivityCallback] at h <;> subst h <;> simp
  · intro records_ n s e d st c
    rfl

/-- C2, witness for the amended theorem at a concrete concurrent-kernel
record. -/
theorem C2_kind_tags_amended_witness :
    (⟨"CONC KERNEL", "vecAdd", 10, 20, 1, 2, 3⟩ : Record) ∈ ([] : List Record) ∨
    (⟨"CONC KERNEL", "vecAdd", 10, 20, 1, 2, 3⟩ : Record).kind ∈
      (["DRIVER", "RUNTIME", "KERNEL", "CONC KERNEL"] : List String) :=
  C2_kind_tags_amended.1 [] (.concurrentKernel "vecAdd" 10 20 1 2 3) _
    (by simp [ActivityCallback])

/-- C3, counterexample: the kinds `Tracer::stop` disables are not in the
reverse of the order `Tracer::start` enabled them (the source repeats the
same order). -/
theorem C3_stop_disable_order_counterexample :
    disabledKinds Tracer.stop ≠ (enabledKinds Tracer.start).reverse := by
  decide

/-- C3, amended: `stop` disables exactly the event categories `start`
enabled, in the same order as their enablement (not reversed), then
unsubscribes the callback, then triggers the flush of in-flight buffers. -/
theorem C3_stop_sequence_amended :
    disabledKinds Tracer.stop = enabledKinds Tracer.start ∧
    Tracer.stop
      = (enabledKinds Tracer.start).map ProviderCall.activityDisable
          ++ [.unsubscribe, .activityFlushAll 0] :=
  ⟨rfl, rfl⟩

/-- C4: the code evaluated at the failing input. An allocation at the
non-8-aligned address 4 is handed to the provider as the aligned pointer 8;
when the buffer completes, `free` receives that aligned pointer 8, not the
originally-allocated address 4. -/
theorem C4_free_of_aligned_pointer :
    InternalBufferRequested (some 4) = .ok (8, BUF_SIZE, 0) ∧
    InternalBufferCompleted [] 8 0 [] .maxLimitReached = .ok ([], [8]) ∧
    (8 : Nat) ≠ 4 :=
  ⟨rfl, rfl, by decide⟩

lemma ALIGN_BUFFER_eight (bfr : Nat) :
    ALIGN_BUFFER bfr ALIGN_SIZE
      = if bfr % 8 ≠ 0 then bfr + (8 - bfr % 8) else bfr := by
  have h : bfr &&& 7 = bfr % 8 := by
    have h8 := Nat.and_pow_two_sub_one_eq_mod bfr 3
    norm_num at h8
    exact h8
  simp only [ALIGN_BUFFER, ALIGN_SIZE]
  norm_num [h]

/-- C5: every buffer request either aborts on allocation failure (never
returning a buffer) or reports the 8-byte-aligned pointer inside the
allocation of `BUF_SIZE + ALIGN_SIZE` bytes, with capacity `BUF_SIZE`
(32 KiB) and `maxNumRecords = 0`. -/
theorem C5_buffer_request_contract (allocation : Option Nat) :
    (allocation = none → InternalBufferRequested allocation = .aborted (-1)) ∧
    (∀ bfr, allocation = some bfr →
        InternalBufferRequested allocation
            = .ok (ALIGN_BUFFER bfr ALIGN_SIZE, BUF_SIZE, 0) ∧
          ALIGN_BUFFER bfr ALIGN_SIZE % 8 = 0 ∧
          bfr ≤ ALIGN_BUFFER bfr ALIGN_SIZE ∧
          ALIGN_BUFFER bfr ALIGN_SIZE + BUF_SIZE ≤ bfr + (BUF_SIZE + ALIGN_SIZE) ∧
          BUF_SIZE = 32 * 1024) := by
  constructor
  · intro h
    subst h
    rfl
  · intro bfr h
    subst h
    have hb : BUF_SIZE = 32 * 1024 := rfl
    have ha : ALIGN_SIZE = 8 := rfl
    refine ⟨rfl, ?_, ?_, ?_, rfl⟩
    · rw [ALIGN_BUFFER_eight]
      split <;> omega
    · rw [ALIGN_BUFFER_eight]
      split <;> omega
    · rw [ALIGN_BUFFER_eight, hb, ha]
      split <;> omega

/-- C5, witness: the contract applied to a failed allocation and to a
concrete allocation at address 5. -/
theorem C5_buffer_request_contract_witness :
    InternalBufferRequested (none : Option Nat) = .aborted (-1) ∧
    (InternalBufferRequested (some 5)
        = .ok (ALIGN_BUFFER 5 ALIGN_SIZE, BUF_SIZE, 0) ∧
      ALIGN_BUFFER 5 ALIGN_SIZE % 8 = 0 ∧
      5 ≤ ALIGN_BUFFER 5 ALIGN_SIZE ∧
      ALIGN_BUFFER 5 ALIGN_SIZE + BUF_SIZE ≤ 5 + (BUF_SIZE + ALIGN_SIZE) ∧
      BUF_SIZE = 32 * 1024) :=
  ⟨(C5_buffer_request_contract none).1 rfl,
   (C5_buffer_request_contract (some 5)).2 5 rfl⟩

/-- C6: in the buffer-completed handler, an extraction status other than
success or max-limit-reached aborts the process, and every non-aborting
path — including `validSize = 0` — passes the buffer to `free` exactly
once. -/
theorem C6_completion_aborts_or_frees_once (records_ : List Record)
    (buffer validSize : Nat) (extracted : List RawActivity)
    (terminal : TerminalStatus) :
    (∀ code, 0 < validSize → terminal = .error code →
        InternalBufferCompleted records_ buffer validSize extracted terminal
          = .aborted (-1)) ∧
    (∀ result,
        InternalBufferCompleted records_ buffer validSize extracted terminal
          = .ok result → result.2 = [buffer]) := by
  constructor
  · intro code hv ht
    subst ht
    simp [InternalBufferCompleted, hv]
  · intro result hres
    unfold InternalBufferCompleted at hres
    split at hres
    · cases terminal with
      | maxLimitReached =>
          rw [Outcome.ok.injEq] at hres
          rw [← hres]
      | error code => exact absurd hres (by simp)
    · rw [Outcome.ok.injEq] at hres
      rw [← hres]

/-- C6, witness: the handler applied to a concrete error status and to a
concrete empty completion. -/
theorem C6_completion_witness :
    0 < 16 ∧
    InternalBufferCompleted [] 8 16 [] (.error 3) = .aborted (-1) ∧
    (([], [8]) : List Record × List Nat).2 = [8] :=
  ⟨by decide,
   (C6_completion_aborts_or_frees_once [] 8 16 [] (.error 3)).1 3 (by decide) rfl,
   (C6_completion_aborts_or_frees_once [] 8 0 [] .maxLimitReached).2 ([], [8]) rfl⟩

/-- C7: a raw record of any kind outside the decode switch leaves the record
store exactly as it was — no record is produced, nothing is removed, and
the count of records decoded from other raw records is unaffected. -/
theorem C7_unrecognized_kind_ignored (records_ : List Record) (kindCode : Nat) :
    ActivityCallback records_ (.other kindCode) = records_ ∧
    (ActivityCallback records_ (.other kindCode)).length = records_.length :=
  ⟨rfl, rfl⟩

/-- C8: the decoder copies timestamps verbatim, so in every session whose
provider delivers raw records with ordered timestamps, every record in the
accumulated store satisfies `end_ ≥ start`. -/
theorem C8_end_ge_start (delivered : List RawActivity)
    (h : ∀ r ∈ delivered, rawTimesOrdered r) :
    ∀ rec ∈ sessionRecords delivered, rec.start ≤ rec.end_ := by
  intro rec hrec
  rw [sessionRecords, mem_foldl_ActivityCallback] at hrec
  rcases hrec with h0 | ⟨r, hr, hrec⟩
  · exact absurd h0 (List.not_mem_nil rec)
  · have hord := h r hr
    cases r <;> simp_all [ActivityCallback, rawTimesOrdered]

/-- C8, witness: the invariant applied to a session of one runtime record
with ordered timestamps. -/
theorem C8_end_ge_start_witness :
    (⟨"RUNTIME", "", 100, 150, 1, 7, 42⟩ : Record).start
      ≤ (⟨"RUNTIME", "", 100, 150, 1, 7, 42⟩ : Record).end_ :=
  C8_end_ge_start [.runtime 100 150 1 7 42]
    (by
      intro r hr
      rw [List.mem_singleton] at hr
      subst hr
      simp [rawTimesOrdered])
    _ (by simp [sessionRecords, ActivityCallback])

/-- C10: the subscribed host-API callback leaves the record store untouched
for every domain and callback id; records enter the store only through the
buffer-completed decode path (`ActivityCallback`). -/
theorem C10_APICallback_frame (records_ : List Record)
    (domain : CallbackDomain) (cbid : CallbackId) :
    APICallback records_ domain cbid = records_ := by
  cases domain <;> rfl

end cupti_tracer
